import Mathlib

/-!
Verification of the DevSure GitHub repository analyzer
(`githubAnalyzer`: URL parsing, repo-type detection, the scoring engine
`calculateScores`, the verdict function `getVerdict`, and the recommendation
synthesis `addMandatorySuggestions` / `generatePriorityActions`).

The JavaScript source is shallowly embedded: JS objects become structures,
JS numbers holding counts become `Nat`, nullable / dynamically-added fields
become `Option`, and the sequence of mutations performed by each function
becomes a pure function from the input record to the updated record.
-/

/-! ## Generic string helpers (JS `String.prototype` operations) -/

/-- Containment of `pat` as a contiguous run inside a character list. -/
def listContains (pat : List Char) : List Char → Bool
  | [] => pat.isEmpty
  | c :: cs => pat.isPrefixOf (c :: cs) || listContains pat cs

/-- JS `s.includes(sub)`: substring containment. -/
def strIncludes (s sub : String) : Bool :=
  listContains sub.toList s.toList

/-- JS `s?.includes(sub)` on an optionally-present string: `undefined` is falsy. -/
def optIncludes (o : Option String) (sub : String) : Bool :=
  match o with
  | some s => strIncludes s sub
  | none => false

/-- JS truthiness of an optionally-present string field (absent and `""` are falsy). -/
def jsTruthy (o : Option String) : Bool :=
  match o with
  | some s => !s.isEmpty
  | none => false

/-- JS `s.toLowerCase()` (ASCII, which covers every string the source compares). -/
def jsToLower (s : String) : String :=
  String.mk (s.toList.map Char.toLower)

/-- JS `s.replace(pat, repl)` with a plain-string pattern: replaces the first
occurrence only.  Implemented over character lists. -/
def replaceFirstAux (repl pat : List Char) : List Char → List Char
  | [] => []
  | c :: cs =>
    if pat.isPrefixOf (c :: cs) then repl ++ (c :: cs).drop pat.length
    else c :: replaceFirstAux repl pat cs

/-- JS `s.replace(pat, repl)` for string patterns (first occurrence only). -/
def replaceFirst (s pat repl : String) : String :=
  String.mk (replaceFirstAux repl.toList pat.toList s.toList)

/-! ## IEEE-754 arithmetic used by the scoring engine

The only floating-point computation in the analyzer is
`Math.round(rawTotal * confidenceMultiplier)` where `rawTotal` is an integer
and the multiplier is one of the literals `1.0`, `0.85`, `0.7`.  The doubles
denoted by those literals are exactly `1`, `7656119366529843 / 2^53` and
`6305039478318694 / 2^53` (both of the latter slightly below the decimal
values).  We model the computation exactly: the product of the integer and the
stored double is rounded to the nearest double (ties to even), and
`Math.round` then takes the nearest integer with ties toward positive
infinity. -/

/-- Largest `t < 64` with `2^t ≤ a` (and `0` for `a < 2`): the binary exponent
of `a`, for the magnitudes reachable here (`a < 2^63`). -/
def floorLog2 (a : Nat) : Nat :=
  (List.range 64).foldl (fun acc t => if 2 ^ t ≤ a then t else acc) 0

/-- Round `a / 2^k` to the nearest integer, ties to even
(IEEE round-to-nearest-even on a power-of-two denominator). -/
def rtEven (a k : Nat) : Nat :=
  let q := a / 2 ^ k
  let r := a % 2 ^ k
  if 2 * r < 2 ^ k then q
  else if 2 * r > 2 ^ k then q + 1
  else if q % 2 = 0 then q else q + 1

/-- `Math.round(n * m)` where `m` is the double `mNum / 2^53` with
`2^52 ≤ mNum < 2^53`, `n : Nat` is exactly representable, the product is the
correctly rounded double, and `Math.round` is nearest-ties-up.
Valid for products below `2^52` (the analyzer only reaches values `≤ 95`). -/
def jsMulRound (n mNum : Nat) : Nat :=
  if n = 0 then 0
  else
    let a := n * mNum
    let t := floorLog2 a
    let significand := if 52 ≤ t then rtEven a (t - 52) else a * 2 ^ (52 - t)
    (2 * significand + 2 ^ (105 - t)) / 2 ^ (106 - t)

/-- The double multiplication `Math.round(rawTotal * confidenceMultiplier)` of
the source, with the multiplier scaled by 100 (`100`, `85` or `70`).
With multiplier `1.0` the product is exact. -/
def jsRoundTimesMult (n m100 : Nat) : Nat :=
  if m100 = 100 then n
  else if m100 = 85 then jsMulRound n 7656119366529843
  else if m100 = 70 then jsMulRound n 6305039478318694
  else n

/-- Exact rounding of `num / den` to the nearest integer, halves rounded up
(the conventional reading of `round` in the specification). -/
def roundHalfUp (num den : Nat) : Nat :=
  (2 * num + den) / (2 * den)

/-! ## Data model (`result` object of `analyzeGitHubRepo`) -/

/-- Vulnerability counts by severity (`result.security.vulnerabilities` and the
production-only variant). -/
structure VulnCounts where
  critical : Nat
  high : Nat
  moderate : Nat
  low : Nat
  total : Nat
deriving Repr, DecidableEq

/-- One named finding from the audit (`result.security.details` entries). -/
structure AuditFinding where
  pkg : String
  severity : String
  title : String
  fixAvailable : Bool
deriving Repr, DecidableEq

/-- `result.security`. `productionVulns` is added dynamically by
`runSecurityAudit`, hence optional. -/
structure SecurityEvidence where
  analyzed : Bool
  vulnerabilities : VulnCounts
  productionVulns : Option VulnCounts
  details : List AuditFinding
deriving Repr, DecidableEq

/-- An entry of `result.dependencies.outdatedList`. -/
structure OutdatedEntry where
  pkg : String
  current : String
  wanted : String
  latest : String
  depType : String
deriving Repr, DecidableEq

/-- `result.dependencies`. -/
structure DependencyEvidence where
  analyzed : Bool
  total : Nat
  outdated : Nat
  majorUpdatesNeeded : Nat
  outdatedList : List OutdatedEntry
deriving Repr, DecidableEq

/-- An entry of `result.codeQuality.issues`. -/
structure LintIssue where
  file : String
  line : Nat
  severity : String
  message : String
  rule : Option String
deriving Repr, DecidableEq

/-- `result.codeQuality`. -/
structure CodeQualityEvidence where
  analyzed : Bool
  eslintConfigured : Bool
  eslintErrors : Nat
  eslintWarnings : Nat
  issues : List LintIssue
deriving Repr, DecidableEq

/-- `result.typescript`. -/
structure TypeScriptEvidence where
  analyzed : Bool
  configured : Bool
  errors : Nat
deriving Repr, DecidableEq

/-- `result.stack`. -/
structure StackEvidence where
  detected : Bool
  framework : Option String
  language : Option String
  hasTypeScript : Bool
  hasESLint : Bool
  hasTests : Bool
  hasCICD : Bool
  hasReadme : Bool
  hasLicense : Bool
  hasEnvExample : Bool
  hasProperStructure : Bool
deriving Repr, DecidableEq

/-- The scores object created at initialization (lines 120-125 of the source):
`{ security: 50, codeQuality: 50, maintenance: 50, overall: 50 }`. -/
structure InitScores where
  security : Nat
  codeQuality : Nat
  maintenance : Nat
  overall : Nat
deriving Repr, DecidableEq

/-- The scores object substituted by `calculateScores`.  `confidenceMultiplier`
is one of the JS doubles written `1.0`, `0.85`, `0.7`; it is stored here scaled
by 100 (so `100`, `85`, `70`). -/
structure FinalScores where
  security : Nat
  codeQuality : Nat
  testing : Nat
  dependencies : Nat
  hygiene : Nat
  overall : Nat
  rawTotal : Nat
  confidenceMultiplier100 : Nat
  maxPossible : Nat
deriving Repr, DecidableEq

/-- `result.scores` changes shape when `calculateScores` replaces it wholesale;
the two shapes are the two constructors. -/
inductive ScoresState where
  | initial (s : InitScores)
  | computed (s : FinalScores)
deriving Repr, DecidableEq

/-- One category of the score breakdown: `{ earned, max, details }`. -/
structure CatScore where
  earned : Nat
  max : Nat
  details : List String
deriving Repr, DecidableEq

/-- `result.scoreDetails`: the five categories. -/
structure ScoreBreakdown where
  security : CatScore
  codeQuality : CatScore
  testing : CatScore
  dependencies : CatScore
  hygiene : CatScore
deriving Repr, DecidableEq

/-- `result.verdict` produced by `getVerdict`. -/
structure Verdict where
  emoji : String
  label : String
  reason : String
  color : String
deriving Repr, DecidableEq

/-- An entry of `result.suggestions`. -/
structure Suggestion where
  priority : String
  category : String
  title : String
  description : String
deriving Repr, DecidableEq

/-- An entry of `result.priorityActions`. -/
structure PriorityAction where
  priority : Nat
  urgency : String
  title : String
  command : String
  timeEstimate : String
  impact : String
deriving Repr, DecidableEq

/-- An entry of `result.plainEnglishSummary`. -/
structure SummaryItem where
  icon : String
  title : String
  plain : String
  action : String
deriving Repr, DecidableEq

/-- `result.rawMetrics` as filled in by `calculateScores`. -/
structure RawMetrics where
  eslintErrors : Nat
  eslintWarnings : Nat
  vulnerabilities : VulnCounts
  effectiveVulnerabilities : VulnCounts
  outdatedDeps : Nat
  totalDeps : Nat
  hasTests : Bool
  hasTypeScript : Bool
  hasESLint : Bool
  repoType : String
deriving Repr, DecidableEq

/-- Return value of `parseGitHubUrl`: `{ owner, repo, isValid: true }` on a
match, `{ isValid: false }` otherwise. -/
structure RepoInfo where
  owner : Option String
  repo : Option String
  isValid : Bool
deriving Repr, DecidableEq

/-- The composite `result` record of `analyzeGitHubRepo`.  Fields that the
source only assigns later (`scoreDetails`, `verdict`, `rawMetrics`, `error`)
are optional. -/
structure Result where
  success : Bool
  repoInfo : RepoInfo
  repoType : String
  analysisConfidence : String
  analysisDepth : List String
  isMonorepo : Bool
  packagesAnalyzed : List String
  stack : StackEvidence
  security : SecurityEvidence
  dependencies : DependencyEvidence
  codeQuality : CodeQualityEvidence
  typescript : TypeScriptEvidence
  scores : ScoresState
  rawMetrics : Option RawMetrics
  suggestions : List Suggestion
  plainEnglishSummary : List SummaryItem
  priorityActions : List PriorityAction
  error : Option String
  scoreDetails : Option ScoreBreakdown
  verdict : Option Verdict
deriving Repr, DecidableEq

/-! ## `parseGitHubUrl` (lines 32-50)

The source matches the URL against the regular expressions
`github\.com\/([^\/]+)\/([^\/\s\.]+)` and `github\.com:([^\/]+)\/([^\/\s\.]+)`,
trying the first pattern at every position before trying the second.  Because
the first capture group excludes `/` and is immediately followed by a literal
`/`, backtracking within one start position cannot recover from a failure, so
a match at a position is exactly: the literal `github.com` plus the separator,
a non-empty run of non-`/` characters, a `/`, and a non-empty run of
characters that are not `/`, whitespace, or `.`. -/

/-- The character class `\s` of JS regular expressions: ASCII whitespace plus
the Unicode space separators, line/paragraph separators, and the BOM. -/
def jsWhitespace (c : Char) : Bool :=
  c == ' ' || c == '\t' || c == '\n' || c == Char.ofNat 11 || c == Char.ofNat 12 ||
  c == '\r' || c == Char.ofNat 0xa0 || c == Char.ofNat 0x1680 ||
  (0x2000 ≤ c.toNat && c.toNat ≤ 0x200a) ||
  c == Char.ofNat 0x2028 || c == Char.ofNat 0x2029 || c == Char.ofNat 0x202f ||
  c == Char.ofNat 0x205f || c == Char.ofNat 0x3000 || c == Char.ofNat 0xfeff

/-- Attempt the pattern `github.com<sep>([^/]+)/([^/\s.]+)` at the head of the
character list, returning the two capture groups. -/
def matchGitHubAt (sep : Char) (cs : List Char) : Option (List Char × List Char) :=
  let lit := "github.com".toList ++ [sep]
  if lit.isPrefixOf cs then
    let rest := cs.drop lit.length
    let owner := rest.takeWhile (fun c => c ≠ '/')
    if owner.isEmpty then none
    else
      match rest.drop owner.length with
      | '/' :: rest2 =>
        let repo := rest2.takeWhile (fun c => c ≠ '/' && !jsWhitespace c && c ≠ '.')
        if repo.isEmpty then none else some (owner, repo)
      | _ => none
  else none

/-- Scan for the leftmost position where the pattern matches. -/
def searchGitHub (sep : Char) : List Char → Option (List Char × List Char)
  | [] => none
  | c :: cs =>
    match matchGitHubAt sep (c :: cs) with
    | some r => some r
    | none => searchGitHub sep cs

/-- `parseGitHubUrl(url)` (lines 32-50). -/
def parseGitHubUrl (url : String) : RepoInfo :=
  match searchGitHub '/' url.toList with
  | some (owner, repo) =>
    { owner := some (String.mk owner),
      repo := some (replaceFirst (String.mk repo) ".git" ""), isValid := true }
  | none =>
    match searchGitHub ':' url.toList with
    | some (owner, repo) =>
      { owner := some (String.mk owner),
        repo := some (replaceFirst (String.mk repo) ".git" ""), isValid := true }
    | none => { owner := none, repo := none, isValid := false }

/-- `isGitHubRepo(url)` (lines 55-57). -/
def isGitHubRepo (url : String) : Bool :=
  strIncludes url "github.com" && (parseGitHubUrl url).isValid

/-! ## The initial `result` record (lines 69-131) -/

/-- The `result` object as initialized at the top of `analyzeGitHubRepo`. -/
def initResult (repoUrl : String) : Result :=
  { success := false
    repoInfo := parseGitHubUrl repoUrl
    repoType := "application"
    analysisConfidence := "LOW"
    analysisDepth := []
    isMonorepo := false
    packagesAnalyzed := []
    stack :=
      { detected := false, framework := none, language := none,
        hasTypeScript := false, hasESLint := false, hasTests := false,
        hasCICD := false, hasReadme := false, hasLicense := false,
        hasEnvExample := false, hasProperStructure := false }
    security :=
      { analyzed := false,
        vulnerabilities := { critical := 0, high := 0, moderate := 0, low := 0, total := 0 },
        productionVulns := none, details := [] }
    dependencies :=
      { analyzed := false, total := 0, outdated := 0, majorUpdatesNeeded := 0, outdatedList := [] }
    codeQuality :=
      { analyzed := false, eslintConfigured := false, eslintErrors := 0,
        eslintWarnings := 0, issues := [] }
    typescript := { analyzed := false, configured := false, errors := 0 }
    scores := ScoresState.initial { security := 50, codeQuality := 50, maintenance := 50, overall := 50 }
    rawMetrics := none
    suggestions := []
    plainEnglishSummary := []
    priorityActions := []
    error := none
    scoreDetails := none
    verdict := none }

/-! ## `analyzeGitHubRepo` (lines 68-228), early-return slice

The function first builds `initResult`, and if the URL is invalid sets
`error = 'Invalid GitHub URL'` and returns at once — before the temp
directory, the `git clone`, and every collector.  The whole post-validation
pipeline performs process/filesystem effects, so it is abstracted here as the
`pipeline` argument, which returns the transformed result together with the
list of external effects (clone, installs, audits, ...) it performed.  The
early return performs no effect, which the model expresses by the empty
effect list. -/
def analyzeGitHubRepo (repoUrl : String)
    (pipeline : Result → Result × List String) : Result × List String :=
  let result := initResult repoUrl
  if result.repoInfo.isValid = false then
    ({ result with error := some "Invalid GitHub URL" }, [])
  else
    pipeline result

/-! ## `detectRepoType` (lines 569-609) -/

/-- The `scripts` object of a manifest; each script is an optionally-present
string. -/
structure PkgScripts where
  start : Option String
  dev : Option String
  build : Option String
  prepublish : Option String
  prepublishOnly : Option String
deriving Repr, DecidableEq

/-- The manifest fields `detectRepoType` inspects.  `bin`, `main`, `module`,
`exports`, `workspaces`, `lpierna` stand for the JS truthiness of those
fields; `privateFlag` models `pkg.private` (which the source compares with
`=== true`); `private` itself is a Lean keyword. -/
structure Pkg where
  name : Option String
  bin : Bool
  main : Bool
  module : Bool
  exports : Bool
  privateFlag : Bool
  workspaces : Bool
  lpierna : Bool
  scripts : Option PkgScripts
deriving Repr, DecidableEq

/-- `detectRepoType(pkg, repoDir)` (lines 569-609).  The `repoDir` parameter
is unused by the source body and omitted. -/
def detectRepoType (pkg : Pkg) : String :=
  if pkg.bin then "cli"
  else
    let startScript := pkg.scripts.bind PkgScripts.start
    let devScript := pkg.scripts.bind PkgScripts.dev
    let buildScript := pkg.scripts.bind PkgScripts.build
    let isLibrary :=
      (pkg.main || pkg.module || pkg.exports) &&
      !(optIncludes startScript "node server") &&
      !(optIncludes startScript "node app") &&
      !(optIncludes startScript "node src/index") &&
      !(optIncludes startScript "next") &&
      !(optIncludes startScript "react-scripts") &&
      !(optIncludes devScript "next") &&
      (optIncludes buildScript "rollup" ||
       optIncludes buildScript "tsc" ||
       optIncludes buildScript "webpack" ||
       jsTruthy (pkg.scripts.bind PkgScripts.prepublish) ||
       jsTruthy (pkg.scripts.bind PkgScripts.prepublishOnly))
    if isLibrary then
      let lowerName := jsToLower (pkg.name.getD "")
      let frameworkKeywords :=
        ["express", "fastify", "koa", "hapi", "nest", "next", "nuxt", "gatsby"]
      let isFramework :=
        frameworkKeywords.any (fun kw => strIncludes lowerName kw) && pkg.main
      if isFramework then "framework" else "library"
    else if pkg.workspaces || pkg.lpierna || (pkg.privateFlag && !pkg.main) then
      "monorepo"
    else "application"

/-! ## `calculateScores` (lines 895-1237)

The body is one long sequence of blocks, one per category, each mutating a
local `scores` object and occasionally pushing suggestions and
`analysisDepth` tags onto `result`.  Each block below is a pure function
returning the category score plus the suggestions / depth tags it pushes;
`calculateScores` composes them in the source order. -/

/-- `isLibrary` as computed at line 904. -/
def isLibraryType (repoType : String) : Bool :=
  repoType == "library" || repoType == "framework" || repoType == "cli"

/-- `effectiveVulns` (lines 909-915): production-only counts for
library/framework/cli targets (`?.field || 0`), all-dependency counts
otherwise. -/
def effectiveVulnsOf (result : Result) : VulnCounts :=
  if isLibraryType result.repoType then
    { critical := ((result.security.productionVulns).map VulnCounts.critical).getD 0,
      high := ((result.security.productionVulns).map VulnCounts.high).getD 0,
      moderate := ((result.security.productionVulns).map VulnCounts.moderate).getD 0,
      low := ((result.security.productionVulns).map VulnCounts.low).getD 0,
      total := ((result.security.productionVulns).map VulnCounts.total).getD 0 }
  else result.security.vulnerabilities

/-- The informational devDependency note of line 925. -/
def devDepNote (total : Nat) : String :=
  "ℹ️ " ++ toString total ++ " vulnerabilities in devDependencies (not counted for libraries)"

/-- Security category (lines 920-984): earn points for each absent severity,
then hard-cap on critical/high findings; flat floor of 5 when the audit did
not run.  Returns (category, pushed suggestions, pushed analysisDepth tags). -/
def securityBlock (analyzed : Bool) (vulns eff : VulnCounts) (isLib : Bool) :
    CatScore × List Suggestion × List String :=
  if analyzed then
    let d0 : List String :=
      if isLib && decide (0 < vulns.total) && decide (eff.total = 0) then
        [devDepNote vulns.total]
      else []
    let e1 := if eff.critical = 0 then 10 else 0
    let d1 := d0 ++ [if eff.critical = 0 then "✓ No critical vulnerabilities (+10)"
                     else "✗ " ++ toString eff.critical ++ " critical vulnerabilities (0)"]
    let e2 := e1 + (if eff.high = 0 then 10 else 0)
    let d2 := d1 ++ [if eff.high = 0 then "✓ No high vulnerabilities (+10)"
                     else "✗ " ++ toString eff.high ++ " high vulnerabilities (0)"]
    let e3 := e2 + (if eff.moderate = 0 then 5 else 2)
    let d3 := d2 ++ [if eff.moderate = 0 then "✓ No moderate vulnerabilities (+5)"
                     else "⚠ " ++ toString eff.moderate ++ " moderate vulnerabilities (+2)"]
    let e4 := e3 + (if eff.total = 0 then 5 else 0)
    let d4 := d3 ++ (if eff.total = 0 then ["✓ Zero vulnerabilities (+5 bonus)"] else [])
    let e5 := if 0 < eff.critical then Nat.min e4 10
              else if 0 < eff.high then Nat.min e4 20
              else e4
    let sugg : List Suggestion :=
      if 0 < eff.critical then
        [{ priority := "critical", category := "security",
           title := "Fix " ++ toString eff.critical ++ " critical vulnerabilities",
           description :=
             if isLib then
               "Critical vulnerabilities in production dependencies affect all users of this library."
             else "Critical vulnerabilities must be fixed immediately." }]
      else if 0 < eff.high then
        [{ priority := "high", category := "security",
           title := "Fix " ++ toString eff.high ++ " high severity vulnerabilities",
           description :=
             if isLib then
               "High severity issues in production dependencies should be addressed promptly."
             else "High severity issues should be addressed promptly." }]
      else []
    ({ earned := e5, max := 30, details := d4 }, sugg, ["security-audit"])
  else
    ({ earned := 5, max := 30, details := ["⚠ Security audit could not run (+5 base)"] }, [], [])

/-- Code-quality category (lines 992-1060): flat 15 for library-like targets
with their own lint config; full rubric when the lint run completed; floor of
5 when no lint config exists; when lint is configured but the run failed on a
non-library target, no branch of the source cascade applies and the category
keeps its initial 0.  The TypeScript bonus (lines 1057-1060) applies last,
clamped at the category max. -/
def codeQualityBlock (isLib hasESLint cqAnalyzed : Bool) (errors warnings : Nat)
    (hasTypeScript : Bool) : CatScore × List Suggestion × List String :=
  let base : CatScore × List Suggestion × List String :=
    if isLib && hasESLint then
      ({ earned := 15, max := 25,
         details := ["✓ ESLint configured in project (+15)",
                     "ℹ️ Library uses its own ESLint configuration"] },
       [], ["eslint-config-detected"])
    else if cqAnalyzed then
      let e1 := if hasESLint then 5 else 0
      let d1 := if hasESLint then ["✓ ESLint configured (+5)"] else []
      let e2 := e1 + 5
      let d2 := d1 ++ ["✓ Linter analysis completed (+5)"]
      let e3 := e2 + (if errors = 0 then 10 else if errors ≤ 5 then 5 else 0)
      let d3 := d2 ++ [if errors = 0 then "✓ Zero linter errors (+10)"
                       else if errors ≤ 5 then "⚠ " ++ toString errors ++ " linter errors (+5)"
                       else "✗ " ++ toString errors ++ " linter errors (0)"]
      let sugg : List Suggestion :=
        if 5 < errors && !isLib then
          [{ priority := "high", category := "code-quality",
             title := "Fix " ++ toString errors ++ " ESLint errors",
             description := "ESLint errors indicate potential bugs or code quality issues." }]
        else []
      let e4 := e3 + (if warnings ≤ 10 then 5 else if warnings ≤ 25 then 2 else 0)
      let d4 := d3 ++ [if warnings ≤ 10 then
                         "✓ Warnings under control (" ++ toString warnings ++ " ≤ 10) (+5)"
                       else if warnings ≤ 25 then "⚠ " ++ toString warnings ++ " warnings (+2)"
                       else "✗ " ++ toString warnings ++ " warnings (0)"]
      ({ earned := e4, max := 25, details := d4 }, sugg, ["eslint"])
    else if !hasESLint then
      ({ earned := 5, max := 25, details := ["⚠ No linter configured (+5 base)"] },
       if !isLib then
         [{ priority := "high", category := "code-quality",
            title := "Add ESLint for code quality",
            description := "ESLint helps maintain consistent code style and catches common errors." }]
       else [], [])
    else
      ({ earned := 0, max := 25, details := [] }, [], [])
  let withTs : CatScore :=
    if hasTypeScript then
      { base.1 with earned := Nat.min base.1.max (base.1.earned + 3),
                    details := base.1.details ++ ["✓ TypeScript in use (+3 bonus)"] }
    else base.1
  (withTs, base.2.1, base.2.2)

/-- The mandatory testing suggestion of lines 1075-1080. -/
def addTestsSuggestion : Suggestion :=
  { priority := "high", category := "testing", title := "Add automated tests",
    description := "Tests help ensure your code works correctly and prevents regressions." }

/-- Testing category (lines 1065-1087): 10 + 5 for a detected framework, 0 and
a mandatory suggestion otherwise; then the CI/CD bonus of +5 (clamped at the
category max) applies in either case. -/
def testingBlock (hasTests hasCICD : Bool) : CatScore × List Suggestion :=
  let base : CatScore × List Suggestion :=
    if hasTests then
      ({ earned := 15, max := 20,
         details := ["✓ Test framework detected (+10)",
                     "⚠ Test coverage not measured (+5 estimated)"] }, [])
    else
      ({ earned := 0, max := 20, details := ["✗ No tests detected (0)"] },
       [addTestsSuggestion])
  if hasCICD then
    ({ base.1 with earned := Nat.min base.1.max (base.1.earned + 5),
                   details := base.1.details ++ ["✓ CI/CD configured (+5)"] }, base.2)
  else base

/-- Dependencies category (lines 1092-1136): 2 for the package manager, up to
4 for no vulnerable dependencies (effective counts), up to 4 by outdated count
with a more lenient scale for library-like targets; floor of 2 when the check
did not run. -/
def dependenciesBlock (analyzed : Bool) (eff : VulnCounts) (outdated : Nat)
    (isLib : Bool) : CatScore × List String :=
  if analyzed then
    let e1 := 2
    let d1 := ["✓ Package manager detected (+2)"]
    let e2 := e1 + (if eff.total = 0 then 4
                    else if eff.critical = 0 && eff.high = 0 then 2 else 0)
    let d2 := d1 ++ (if eff.total = 0 then ["✓ No vulnerable dependencies (+4)"]
                     else if eff.critical = 0 && eff.high = 0 then
                       ["⚠ Only low/moderate vulnerabilities (+2)"]
                     else [])
    let e3 := e2 + (if isLib then
                      (if outdated = 0 then 4 else if outdated ≤ 10 then 3 else 2)
                    else
                      (if outdated = 0 then 4 else if outdated ≤ 5 then 2 else 0))
    let d3 := d2 ++ [if isLib then
                       (if outdated = 0 then "✓ All dependencies up to date (+4)"
                        else if outdated ≤ 10 then
                          "⚠ " ++ toString outdated ++ " outdated packages (+3) - common for libraries"
                        else
                          "⚠ " ++ toString outdated ++
                            " outdated packages (+2) - may be intentional for compatibility")
                     else
                       (if outdated = 0 then "✓ All dependencies up to date (+4)"
                        else if outdated ≤ 5 then
                          "⚠ " ++ toString outdated ++ " outdated packages (+2)"
                        else "✗ " ++ toString outdated ++ " outdated packages (0)")]
    ({ earned := e3, max := 10, details := d3 }, ["dependencies"])
  else
    ({ earned := 2, max := 10, details := ["⚠ Dependencies not analyzed (+2 base)"] }, [])

/-- Hygiene category (lines 1141-1172): 2 points per present artifact, plus a
suggestion when the README is missing. -/
def hygieneBlock (stack : StackEvidence) : CatScore × List Suggestion :=
  let e1 := if stack.hasReadme then 2 else 0
  let d1 := [if stack.hasReadme then "✓ README exists (+2)" else "✗ No README (0)"]
  let sugg : List Suggestion :=
    if stack.hasReadme then []
    else [{ priority := "medium", category := "hygiene", title := "Add a README",
            description := "A README helps others understand your project." }]
  let e2 := e1 + (if stack.hasLicense then 2 else 0)
  let d2 := d1 ++ (if stack.hasLicense then ["✓ License present (+2)"] else [])
  let e3 := e2 + (if stack.hasEnvExample then 2 else 0)
  let d3 := d2 ++ (if stack.hasEnvExample then ["✓ Environment config (.env.example) (+2)"] else [])
  let e4 := e3 + (if stack.hasCICD then 2 else 0)
  let d4 := d3 ++ (if stack.hasCICD then ["✓ CI config present (+2)"] else [])
  let e5 := e4 + (if stack.hasProperStructure then 2 else 0)
  let d5 := d4 ++ (if stack.hasProperStructure then ["✓ Proper folder structure (+2)"] else [])
  ({ earned := e5, max := 10, details := d5 }, sugg)

/-- `checksRun` (lines 1177-1181): how many of the three collectors have
`analyzed = true`. -/
def checksRun (secAnalyzed cqAnalyzed depAnalyzed : Bool) : Nat :=
  (if secAnalyzed then 1 else 0) + (if cqAnalyzed then 1 else 0) +
    (if depAnalyzed then 1 else 0)

/-- Confidence level and multiplier (lines 1183-1195).  The source computes
`(checksRun / 3) * 100` in doubles and compares with `80` and `40`; for
`checksRun ∈ {0,1,2,3}` that float comparison coincides with the exact
comparison `checksRun * 100 ≥ threshold * 3` used here (the computed doubles
are 0, 33.33…, 66.66…, 100, all far from both thresholds).  The multiplier is
returned scaled by 100. -/
def confidenceOf (secAnalyzed cqAnalyzed depAnalyzed : Bool) : String × Nat :=
  let n := checksRun secAnalyzed cqAnalyzed depAnalyzed
  if n * 100 ≥ 80 * 3 then ("HIGH", 100)
  else if n * 100 ≥ 40 * 3 then ("MEDIUM", 85)
  else ("LOW", 70)

/-- `getVerdict(scores, repoType)` (lines 1242-1371): two verdict ladders, one
for library-like types and one for applications; each begins with the
security hard floor, and the application ladder additionally has the
zero-testing floor before the overall-score ladder. -/
def getVerdict (scores : FinalScores) (repoType : String) : Verdict :=
  if isLibraryType repoType then
    if scores.security < 15 then
      { emoji := "🚨", label := "Security Issues",
        reason := "Production dependencies have security vulnerabilities", color := "danger" }
    else if scores.overall < 40 then
      { emoji := "⚠️", label := "Needs Attention",
        reason := "Some areas need improvement", color := "warning" }
    else if scores.overall < 55 then
      { emoji := "📦", label := "Functional Library",
        reason := "Basic library functionality in place", color := "info" }
    else if scores.overall < 70 then
      { emoji := "✅", label := "Good Library",
        reason := "Well-maintained library", color := "success" }
    else if scores.overall < 85 then
      { emoji := "🚀", label := "Production-Grade",
        reason := "High-quality, production-ready library", color := "success" }
    else
      { emoji := "🏆", label := "Excellent Library",
        reason := "Exceptional quality, industry-leading practices", color := "success" }
  else
    if scores.security < 15 then
      { emoji := "🚨", label := "Not Production Ready",
        reason := "Critical security issues must be fixed", color := "danger" }
    else if scores.testing < 5 then
      { emoji := "⚠️", label := "Not Interview Ready",
        reason := "No tests detected - add tests to demonstrate professionalism",
        color := "warning" }
    else if scores.overall < 25 then
      { emoji := "🚫", label := "Beginner Level",
        reason := "Significant improvements needed", color := "danger" }
    else if scores.overall < 40 then
      { emoji := "⚠️", label := "Needs Work",
        reason := "Address major issues before sharing", color := "warning" }
    else if scores.overall < 55 then
      { emoji := "📈", label := "Developing",
        reason := "Good foundation, keep improving", color := "info" }
    else if scores.overall < 70 then
      { emoji := "✅", label := "Acceptable",
        reason := "Meets basic quality standards", color := "success" }
    else if scores.overall < 85 then
      { emoji := "🚀", label := "Production Ready",
        reason := "Good quality, ready for deployment", color := "success" }
    else
      { emoji := "🏆", label := "Excellent",
        reason := "Exceptional quality (rare)", color := "success" }

/-- `calculateScores(result)` (lines 895-1237): compute the five categories,
the confidence multiplier, the adjusted overall score capped at 95, the
verdict, and the raw metrics, appending the suggestions and analysis-depth
tags pushed along the way. -/
def calculateScores (result : Result) : Result :=
  let isLib := isLibraryType result.repoType
  let vulns := result.security.vulnerabilities
  let eff := effectiveVulnsOf result
  let sec := securityBlock result.security.analyzed vulns eff isLib
  let cq := codeQualityBlock isLib result.stack.hasESLint result.codeQuality.analyzed
    result.codeQuality.eslintErrors result.codeQuality.eslintWarnings result.stack.hasTypeScript
  let test := testingBlock result.stack.hasTests result.stack.hasCICD
  let dep := dependenciesBlock result.dependencies.analyzed eff result.dependencies.outdated isLib
  let hyg := hygieneBlock result.stack
  let conf := confidenceOf result.security.analyzed result.codeQuality.analyzed
    result.dependencies.analyzed
  let rawTotal := sec.1.earned + cq.1.earned + test.1.earned + dep.1.earned + hyg.1.earned
  let adjustedTotal := jsRoundTimesMult rawTotal conf.2
  let finalScores : FinalScores :=
    { security := sec.1.earned, codeQuality := cq.1.earned, testing := test.1.earned,
      dependencies := dep.1.earned, hygiene := hyg.1.earned,
      overall := Nat.min 95 adjustedTotal, rawTotal := rawTotal,
      confidenceMultiplier100 := conf.2, maxPossible := 95 }
  let breakdown : ScoreBreakdown :=
    { security := sec.1, codeQuality := cq.1, testing := test.1,
      dependencies := dep.1, hygiene := hyg.1 }
  { result with
      analysisDepth := result.analysisDepth ++ sec.2.2 ++ cq.2.2 ++ dep.2,
      suggestions := result.suggestions ++ sec.2.1 ++ cq.2.1 ++ test.2 ++ hyg.2,
      analysisConfidence := conf.1,
      scores := ScoresState.computed finalScores,
      scoreDetails := some breakdown,
      verdict := some (getVerdict finalScores result.repoType),
      rawMetrics := some
        { eslintErrors := result.codeQuality.eslintErrors,
          eslintWarnings := result.codeQuality.eslintWarnings,
          vulnerabilities := vulns, effectiveVulnerabilities := eff,
          outdatedDeps := result.dependencies.outdated,
          totalDeps := result.dependencies.total,
          hasTests := result.stack.hasTests,
          hasTypeScript := result.stack.hasTypeScript,
          hasESLint := result.stack.hasESLint,
          repoType := result.repoType } }

/-! ## `deduplicateSuggestions` (lines 1491-1536) -/

/-- The topic keyword groups (lines 1493-1499). -/
def topicPatterns : List (String × List String) :=
  [("eslint", ["eslint", "linting", "code quality"]),
   ("typescript", ["typescript"]),
   ("tests", ["test", "testing", "jest", "vitest"]),
   ("security", ["vulnerabilit", "security", "audit"]),
   ("outdated", ["outdated", "update", "packages can be updated"])]

/-- `getTopic(title)` (lines 1501-1507): first matching topic group, else the
lower-cased title itself. -/
def getTopic (title : String) : String :=
  let lower := jsToLower title
  match topicPatterns.find? (fun p => p.2.any (fun pat => strIncludes lower pat)) with
  | some p => p.1
  | none => lower

/-- The `priorityOrder` lookup `{critical: 0, high: 1, medium: 2, low: 3,
info: 4}`; `none` models an absent key (JS `undefined`). -/
def priorityRank? (p : String) : Option Nat :=
  if p = "critical" then some 0
  else if p = "high" then some 1
  else if p = "medium" then some 2
  else if p = "low" then some 3
  else if p = "info" then some 4
  else none

/-- Update the value stored under `k` in an association list (JS `Map.set` on
an existing key). -/
def assocSet (m : List (String × Suggestion)) (k : String) (v : Suggestion) :
    List (String × Suggestion) :=
  m.map (fun p => if p.1 = k then (k, v) else p)

/-- The dedup loop of lines 1509-1533: `seen` is the topic map, `acc` the
`dedupedSuggestions` array.  A repeated topic replaces the stored suggestion
in place only when strictly higher priority (`?? 5` on unknown priorities). -/
def dedupeGo : List Suggestion → List (String × Suggestion) → List Suggestion → List Suggestion
  | [], _, acc => acc
  | s :: rest, seen, acc =>
    let topic := getTopic s.title
    match seen.lookup topic with
    | none => dedupeGo rest ((topic, s) :: seen) (acc ++ [s])
    | some existing =>
      let existingPriority := (priorityRank? existing.priority).getD 5
      let newPriority := (priorityRank? s.priority).getD 5
      if newPriority < existingPriority then
        let idx := acc.indexOf existing
        let acc2 := if idx < acc.length then acc.set idx s else acc
        dedupeGo rest (assocSet seen topic s) acc2
      else dedupeGo rest seen acc

/-- `deduplicateSuggestions(result)` (lines 1491-1536). -/
def deduplicateSuggestions (result : Result) : Result :=
  { result with suggestions := dedupeGo result.suggestions [] [] }

/-! ## `addMandatorySuggestions` (lines 1541-1580) -/

/-- Sort key of the final comparator (lines 1576-1579):
`priorityOrder[p] || 5`.  Note `||`, not `??`: the rank 0 of `critical` is
falsy in JS, so `critical` sorts with key 5 here. -/
def sortKeyOf (s : Suggestion) : Nat :=
  match priorityRank? s.priority with
  | some k => if k = 0 then 5 else k
  | none => 5

/-- Insertion of one element into a list sorted by `sortKeyOf`, placing it
before equal keys; with the right fold below this yields a stable ascending
sort, matching the stable JS `Array.prototype.sort`. -/
def insertByKey (a : Suggestion) : List Suggestion → List Suggestion
  | [] => [a]
  | b :: l => if sortKeyOf a ≤ sortKeyOf b then a :: b :: l else b :: insertByKey a l

/-- Stable sort by `sortKeyOf` (the ascending comparator sort of line 1577). -/
def sortByPriority (l : List Suggestion) : List Suggestion :=
  l.foldr insertByKey []

/-- The generic fallback suggestion (lines 1546-1553). -/
def genericSuggestion : Suggestion :=
  { priority := "low", category := "general",
    title := "Consider adding more documentation",
    description := "Good documentation improves maintainability." }

/-- `addMandatorySuggestions(result)` (lines 1541-1580): dedupe, guarantee a
non-empty list, disclose limited confidence, add the framework-specific
suggestion, then sort by priority. -/
def addMandatorySuggestions (result : Result) : Result :=
  let r1 := deduplicateSuggestions result
  let s1 := if r1.suggestions.isEmpty then r1.suggestions ++ [genericSuggestion]
            else r1.suggestions
  let s2 := if r1.analysisConfidence ≠ "HIGH" then
              s1 ++ [{ priority := "info", category := "analysis",
                       title := "Analysis depth limited",
                       description := "Confidence: " ++ r1.analysisConfidence ++
                         ". Runtime behavior and load testing not performed." }]
            else s1
  let s3 := if r1.stack.framework == some "Next.js" && !r1.stack.hasTests then
              s2 ++ [{ priority := "medium", category := "testing",
                       title := "Add React Testing Library",
                       description := "Test your Next.js components to prevent UI regressions." }]
            else s2
  { r1 with suggestions := sortByPriority s3 }

/-! ## `generatePriorityActions` (lines 388-464) -/

/-- The fallback action of lines 452-461. -/
def fallbackAction : PriorityAction :=
  { priority := 1, urgency := "Keep it up", title := "Maintain regular updates",
    command := "npm outdated", timeEstimate := "Weekly check",
    impact := "Keeps your project healthy over time" }

/-- `generatePriorityActions(result)` (lines 388-464): one action per concern
in fixed precedence order, with the fallback appended when no concern applies.
Note this reads the raw (all-dependency) vulnerability counts. -/
def generatePriorityActions (result : Result) : Result :=
  let a1 : List PriorityAction :=
    if 0 < result.security.vulnerabilities.critical then
      [{ priority := 1, urgency := "Do this now",
         title := "Fix critical security vulnerabilities",
         command := "npm audit fix --force", timeEstimate := "5 minutes",
         impact := "Prevents hackers from exploiting known weaknesses" }]
    else []
  let a2 := a1 ++
    (if 0 < result.security.vulnerabilities.high then
      [{ priority := 2, urgency := "Do this today",
         title := "Fix high severity vulnerabilities",
         command := "npm audit fix", timeEstimate := "10 minutes",
         impact := "Reduces security risk significantly" }]
    else [])
  let a3 := a2 ++
    (if !result.stack.hasTests then
      [{ priority := 3, urgency := "Do this week", title := "Add automated tests",
         command := "npm install -D jest", timeEstimate := "2-4 hours",
         impact := "Catches bugs before users find them" }]
    else [])
  let a4 := a3 ++
    (if !result.stack.hasESLint then
      [{ priority := 4, urgency := "Nice to have", title := "Add code linting",
         command := "npm install -D eslint && npx eslint --init",
         timeEstimate := "30 minutes",
         impact := "Catches common mistakes automatically" }]
    else [])
  let a5 := a4 ++
    (if 5 < result.dependencies.outdated then
      [{ priority := 5, urgency := "When you have time",
         title := "Update outdated packages", command := "npm update",
         timeEstimate := "15 minutes",
         impact := "Gets bug fixes and security patches" }]
    else [])
  let a6 := if a5.isEmpty then a5 ++ [fallbackAction] else a5
  { result with priorityActions := a6 }

/-! ## Accessors used to state the claims -/

/-- The empty category, default for reading an absent breakdown. -/
def emptyCat : CatScore := { earned := 0, max := 0, details := [] }

/-- The score breakdown of a result (`result.scoreDetails`), defaulting to
empty categories when scoring has not run. -/
def breakdownOf (r : Result) : ScoreBreakdown :=
  r.scoreDetails.getD
    { security := emptyCat, codeQuality := emptyCat, testing := emptyCat,
      dependencies := emptyCat, hygiene := emptyCat }

/-- The final scores of a result, defaulting to zeros when `calculateScores`
has not replaced the initial scores object. -/
def finalScoresOf (r : Result) : FinalScores :=
  match r.scores with
  | ScoresState.computed f => f
  | ScoresState.initial _ =>
    { security := 0, codeQuality := 0, testing := 0, dependencies := 0,
      hygiene := 0, overall := 0, rawTotal := 0, confidenceMultiplier100 := 0,
      maxPossible := 0 }

/-! ## Concrete evidence records used to instantiate the theorems -/

/-- A valid GitHub URL for building concrete results. -/
def exUrl : String := "https://github.com/acme/widget"

/-- The freshly initialized result for `exUrl`: every collector failed
(`analyzed = false`), no evidence flags set. -/
def baseResult : Result := initResult exUrl

/-- Audit ran and found one critical vulnerability (application target). -/
def exCritical : Result :=
  { baseResult with
      security :=
        { analyzed := true,
          vulnerabilities := { critical := 1, high := 0, moderate := 0, low := 0, total := 1 },
          productionVulns := none, details := [] } }

/-- Only the security audit ran (clean); hygiene artifacts present except CI.
Raw total 45 = security 30 + code-quality floor 5 + testing 0 + dependency
floor 2 + hygiene 8, with one collector of three: LOW confidence, ×0.7. -/
def exRaw45 : Result :=
  { baseResult with
      security :=
        { analyzed := true,
          vulnerabilities := { critical := 0, high := 0, moderate := 0, low := 0, total := 0 },
          productionVulns := none, details := [] },
      stack :=
        { baseResult.stack with
            hasReadme := true, hasLicense := true, hasEnvExample := true,
            hasProperStructure := true } }

/-- No test framework, but CI/CD configuration present. -/
def exNoTestsWithCI : Result :=
  { baseResult with stack := { baseResult.stack with hasCICD := true } }

/-- Application target that has its own ESLint configuration, but whose lint
run failed (`codeQuality.analyzed = false`). -/
def exLintFailed : Result :=
  { baseResult with stack := { baseResult.stack with hasESLint := true } }

/-- Library target: audit ran, 5 vulnerabilities all in devDependencies
(production-only counts all zero), dependency check ran with nothing
outdated. -/
def exLibraryDevVulns : Result :=
  { baseResult with
      repoType := "library",
      security :=
        { analyzed := true,
          vulnerabilities := { critical := 0, high := 2, moderate := 3, low := 0, total := 5 },
          productionVulns := some { critical := 0, high := 0, moderate := 0, low := 0, total := 0 },
          details := [] },
      dependencies := { baseResult.dependencies with analyzed := true } }

/-- Application target with critical findings (security category collapses to
2) and no tests: both verdict floors apply at once. -/
def exBothFloors : Result :=
  { baseResult with
      security :=
        { analyzed := true,
          vulnerabilities := { critical := 1, high := 1, moderate := 1, low := 0, total := 3 },
          productionVulns := none, details := [] } }

/-- Scores with healthy security but zero testing. -/
def exScoresZeroTesting : FinalScores :=
  { security := 20, codeQuality := 10, testing := 0, dependencies := 5,
    hygiene := 5, overall := 90, rawTotal := 40, confidenceMultiplier100 := 100,
    maxPossible := 95 }

/-- Scores with failing security but non-zero testing. -/
def exScoresLowSecurity : FinalScores :=
  { security := 10, codeQuality := 10, testing := 7, dependencies := 5,
    hygiene := 5, overall := 90, rawTotal := 37, confidenceMultiplier100 := 100,
    maxPossible := 95 }

/-- A manifest declaring `bin` together with the library signals `main` and
`workspaces` (precedence scenario of the spec). -/
def exBinPkg : Pkg :=
  { name := none, bin := true, main := true, module := false, exports := false,
    privateFlag := false, workspaces := true, lpierna := false, scripts := none }

/-- A URL that matches no GitHub pattern. -/
def exBadUrl : String := "https://gitlab.com/acme/widget"

/-- A stand-in post-validation pipeline that would report a clone effect. -/
def exPipeline : Result → Result × List String :=
  fun r => (r, ["git clone"])

/-! ## Supporting lemmas -/

theorem securityBlock_earned_le (analyzed : Bool) (vulns eff : VulnCounts) (isLib : Bool) :
    (securityBlock analyzed vulns eff isLib).1.earned ≤ 30 := by
  dsimp only [securityBlock]
  split_ifs <;> simp

theorem codeQualityBlock_earned_le (isLib hasESLint cqAnalyzed : Bool) (errors warnings : Nat)
    (hasTypeScript : Bool) :
    (codeQualityBlock isLib hasESLint cqAnalyzed errors warnings hasTypeScript).1.earned ≤ 25 := by
  dsimp only [codeQualityBlock]
  split_ifs <;> simp

theorem testingBlock_earned_le (hasTests hasCICD : Bool) :
    (testingBlock hasTests hasCICD).1.earned ≤ 20 := by
  dsimp only [testingBlock]
  split_ifs <;> simp

theorem dependenciesBlock_earned_le (analyzed : Bool) (eff : VulnCounts) (outdated : Nat)
    (isLib : Bool) :
    (dependenciesBlock analyzed eff outdated isLib).1.earned ≤ 10 := by
  dsimp only [dependenciesBlock]
  split_ifs <;> simp

theorem hygieneBlock_earned_le (stack : StackEvidence) :
    (hygieneBlock stack).1.earned ≤ 10 := by
  dsimp only [hygieneBlock]
  split_ifs <;> simp

theorem breakdownOf_calculateScores (r : Result) :
    breakdownOf (calculateScores r) =
      { security := (securityBlock r.security.analyzed r.security.vulnerabilities
          (effectiveVulnsOf r) (isLibraryType r.repoType)).1,
        codeQuality := (codeQualityBlock (isLibraryType r.repoType) r.stack.hasESLint
          r.codeQuality.analyzed r.codeQuality.eslintErrors r.codeQuality.eslintWarnings
          r.stack.hasTypeScript).1,
        testing := (testingBlock r.stack.hasTests r.stack.hasCICD).1,
        dependencies := (dependenciesBlock r.dependencies.analyzed (effectiveVulnsOf r)
          r.dependencies.outdated (isLibraryType r.repoType)).1,
        hygiene := (hygieneBlock r.stack).1 } := rfl

theorem finalScoresOf_calculateScores (r : Result) :
    finalScoresOf (calculateScores r) =
      { security := (breakdownOf (calculateScores r)).security.earned,
        codeQuality := (breakdownOf (calculateScores r)).codeQuality.earned,
        testing := (breakdownOf (calculateScores r)).testing.earned,
        dependencies := (breakdownOf (calculateScores r)).dependencies.earned,
        hygiene := (breakdownOf (calculateScores r)).hygiene.earned,
        overall := Nat.min 95 (jsRoundTimesMult
          ((breakdownOf (calculateScores r)).security.earned +
           (breakdownOf (calculateScores r)).codeQuality.earned +
           (breakdownOf (calculateScores r)).testing.earned +
           (breakdownOf (calculateScores r)).dependencies.earned +
           (breakdownOf (calculateScores r)).hygiene.earned)
          (confidenceOf r.security.analyzed r.codeQuality.analyzed r.dependencies.analyzed).2),
        rawTotal :=
          (breakdownOf (calculateScores r)).security.earned +
          (breakdownOf (calculateScores r)).codeQuality.earned +
          (breakdownOf (calculateScores r)).testing.earned +
          (breakdownOf (calculateScores r)).dependencies.earned +
          (breakdownOf (calculateScores r)).hygiene.earned,
        confidenceMultiplier100 :=
          (confidenceOf r.security.analyzed r.codeQuality.analyzed r.dependencies.analyzed).2,
        maxPossible := 95 } := rfl

theorem suggestions_calculateScores (r : Result) :
    (calculateScores r).suggestions =
      r.suggestions ++
      (securityBlock r.security.analyzed r.security.vulnerabilities
        (effectiveVulnsOf r) (isLibraryType r.repoType)).2.1 ++
      (codeQualityBlock (isLibraryType r.repoType) r.stack.hasESLint
        r.codeQuality.analyzed r.codeQuality.eslintErrors r.codeQuality.eslintWarnings
        r.stack.hasTypeScript).2.1 ++
      (testingBlock r.stack.hasTests r.stack.hasCICD).2 ++
      (hygieneBlock r.stack).2 := rfl

theorem analysisConfidence_calculateScores (r : Result) :
    (calculateScores r).analysisConfidence =
      (confidenceOf r.security.analyzed r.codeQuality.analyzed r.dependencies.analyzed).1 := rfl

theorem securityBlock_cap_critical (vulns eff : VulnCounts) (isLib : Bool)
    (h : 0 < eff.critical) :
    (securityBlock true vulns eff isLib).1.earned ≤ 10 := by
  dsimp only [securityBlock]
  split_ifs <;> simp_all

theorem securityBlock_cap_high (vulns eff : VulnCounts) (isLib : Bool)
    (hc : eff.critical = 0) (hh : 0 < eff.high) :
    (securityBlock true vulns eff isLib).1.earned ≤ 20 := by
  dsimp only [securityBlock]
  split_ifs <;> simp_all

/-- For every reachable raw total, the double computation agrees with exact
round-half-up under the 0.85 multiplier. -/
theorem jsMulRound85_eq : ∀ n, n < 96 →
    jsMulRound n 7656119366529843 = roundHalfUp (n * 85) 100 := by decide

/-- Under the 0.7 multiplier the double computation rounds one unit below
exact round-half-up precisely at the exact halves 45 × 0.7 and 85 × 0.7: the
stored double 0.7 is slightly below 7/10, so those products evaluate just
under …1.5 and round down. -/
theorem jsMulRound70_eq : ∀ n, n < 96 →
    jsMulRound n 6305039478318694 =
      (if n = 45 ∨ n = 85 then roundHalfUp (n * 70) 100 - 1
       else roundHalfUp (n * 70) 100) := by decide

theorem insertByKey_length (a : Suggestion) (l : List Suggestion) :
    (insertByKey a l).length = l.length + 1 := by
  induction l with
  | nil => rfl
  | cons b t ih =>
    dsimp only [insertByKey]
    split_ifs <;> simp [ih]

theorem sortByPriority_length (l : List Suggestion) :
    (sortByPriority l).length = l.length := by
  induction l with
  | nil => rfl
  | cons a t ih =>
    dsimp only [sortByPriority] at ih ⊢
    simp [List.foldr, insertByKey_length, ih]

/-! ## The claims -/

/-- C1: for every evidence input to the scoring engine, each category satisfies
`earned ≤ max` with the maxima 30/25/20/10/10 (the lower bound `0 ≤ earned`
holds by the `Nat` embedding: no branch ever subtracts), and the overall score
is capped at 95, never 96–100. -/
theorem C1_category_bounds_and_overall_cap (r : Result) :
    (breakdownOf (calculateScores r)).security.earned ≤ (breakdownOf (calculateScores r)).security.max ∧
    (breakdownOf (calculateScores r)).security.max = 30 ∧
    (breakdownOf (calculateScores r)).codeQuality.earned ≤ (breakdownOf (calculateScores r)).codeQuality.max ∧
    (breakdownOf (calculateScores r)).codeQuality.max = 25 ∧
    (breakdownOf (calculateScores r)).testing.earned ≤ (breakdownOf (calculateScores r)).testing.max ∧
    (breakdownOf (calculateScores r)).testing.max = 20 ∧
    (breakdownOf (calculateScores r)).dependencies.earned ≤ (breakdownOf (calculateScores r)).dependencies.max ∧
    (breakdownOf (calculateScores r)).dependencies.max = 10 ∧
    (breakdownOf (calculateScores r)).hygiene.earned ≤ (breakdownOf (calculateScores r)).hygiene.max ∧
    (breakdownOf (calculateScores r)).hygiene.max = 10 ∧
    (finalScoresOf (calculateScores r)).overall ≤ 95 := by
  rw [breakdownOf_calculateScores, finalScoresOf_calculateScores]
  have hsecmax : (securityBlock r.security.analyzed r.security.vulnerabilities
      (effectiveVulnsOf r) (isLibraryType r.repoType)).1.max = 30 := by
    dsimp only [securityBlock]; split_ifs <;> rfl
  have hcqmax : (codeQualityBlock (isLibraryType r.repoType) r.stack.hasESLint
      r.codeQuality.analyzed r.codeQuality.eslintErrors r.codeQuality.eslintWarnings
      r.stack.hasTypeScript).1.max = 25 := by
    dsimp only [codeQualityBlock]; split_ifs <;> rfl
  have htestmax : (testingBlock r.stack.hasTests r.stack.hasCICD).1.max = 20 := by
    dsimp only [testingBlock]; split_ifs <;> rfl
  have hdepmax : (dependenciesBlock r.dependencies.analyzed (effectiveVulnsOf r)
      r.dependencies.outdated (isLibraryType r.repoType)).1.max = 10 := by
    dsimp only [dependenciesBlock]; split_ifs <;> rfl
  have hhygmax : (hygieneBlock r.stack).1.max = 10 := rfl
  refine ⟨?_, hsecmax, ?_, hcqmax, ?_, htestmax, ?_, hdepmax, ?_, hhygmax, ?_⟩
  · rw [hsecmax]; exact securityBlock_earned_le _ _ _ _
  · rw [hcqmax]; exact codeQualityBlock_earned_le _ _ _ _ _ _
  · rw [htestmax]; exact testingBlock_earned_le _ _
  · rw [hdepmax]; exact dependenciesBlock_earned_le _ _ _ _
  · rw [hhygmax]; exact hygieneBlock_earned_le _
  · exact Nat.min_le_left _ _

/-- C2: whenever the security audit ran, a positive effective critical count
(production-only for library/framework/cli types, all-dependency otherwise)
caps the security category at 10, and with zero effective criticals a positive
effective high count caps it at 20 — regardless of all other evidence. -/
theorem C2_security_hard_caps (r : Result) (h : r.security.analyzed = true) :
    (0 < (effectiveVulnsOf r).critical →
      (breakdownOf (calculateScores r)).security.earned ≤ 10) ∧
    ((effectiveVulnsOf r).critical = 0 → 0 < (effectiveVulnsOf r).high →
      (breakdownOf (calculateScores r)).security.earned ≤ 20) := by
  rw [breakdownOf_calculateScores]
  dsimp only
  rw [h]
  exact ⟨fun hc => securityBlock_cap_critical _ _ _ hc,
         fun hc hh => securityBlock_cap_high _ _ _ hc hh⟩

/-- C2 witness: a concrete run whose audit found one critical vulnerability
earns at most 10 security points. -/
theorem C2_security_hard_caps_witness :
    exCritical.security.analyzed = true ∧
    0 < (effectiveVulnsOf exCritical).critical ∧
    (breakdownOf (calculateScores exCritical)).security.earned ≤ 10 :=
  ⟨rfl, by decide, (C2_security_hard_caps exCritical rfl).1 (by decide)⟩

theorem confidenceOf_snd (a b c : Bool) :
    (confidenceOf a b c).2 = 100 ∨ (confidenceOf a b c).2 = 85 ∨
      (confidenceOf a b c).2 = 70 := by
  dsimp only [confidenceOf]; split_ifs <;> simp

theorem jsRoundTimesMult_eq (S m : Nat) (hS : S ≤ 95)
    (hm : m = 100 ∨ m = 85 ∨ m = 70) :
    jsRoundTimesMult S m =
      (if m = 70 ∧ (S = 45 ∨ S = 85) then roundHalfUp (S * 70) 100 - 1
       else roundHalfUp (S * m) 100) := by
  rcases hm with h | h | h <;> subst h
  · have h1 : jsRoundTimesMult S 100 = S := by simp [jsRoundTimesMult]
    rw [h1, if_neg (by simp)]
    unfold roundHalfUp
    omega
  · have h1 : jsRoundTimesMult S 85 = jsMulRound S 7656119366529843 := by
      simp [jsRoundTimesMult]
    rw [h1, jsMulRound85_eq S (by omega), if_neg (by simp)]
  · have h1 : jsRoundTimesMult S 70 = jsMulRound S 6305039478318694 := by
      simp [jsRoundTimesMult]
    rw [h1, jsMulRound70_eq S (by omega)]
    by_cases h45 : S = 45 ∨ S = 85
    · rw [if_pos h45, if_pos ⟨rfl, h45⟩]
    · rw [if_neg h45, if_neg (fun hc => h45 hc.2)]

/-- C3 (amended): the confidence level and multiplier are exactly the stated
function of how many of the three collectors ran (zero collectors give
LOW/×0.7, all three give HIGH/×1.0), and the overall score equals
`min(95, round(raw total × multiplier))` — where the rounding of an exact
half rounds down instead of up, which happens precisely at raw totals 45 and
85 under the ×0.7 multiplier because the stored double `0.7` is slightly
below 7/10.  The multiplier is stated scaled by 100. -/
theorem C3_confidence_and_overall (r : Result) :
    ((checksRun r.security.analyzed r.codeQuality.analyzed r.dependencies.analyzed = 0 →
        (calculateScores r).analysisConfidence = "LOW" ∧
        (finalScoresOf (calculateScores r)).confidenceMultiplier100 = 70) ∧
     (checksRun r.security.analyzed r.codeQuality.analyzed r.dependencies.analyzed = 3 →
        (calculateScores r).analysisConfidence = "HIGH" ∧
        (finalScoresOf (calculateScores r)).confidenceMultiplier100 = 100) ∧
     ((calculateScores r).analysisConfidence,
       (finalScoresOf (calculateScores r)).confidenceMultiplier100) =
       (if checksRun r.security.analyzed r.codeQuality.analyzed r.dependencies.analyzed * 100 ≥ 80 * 3
        then ("HIGH", 100)
        else if checksRun r.security.analyzed r.codeQuality.analyzed r.dependencies.analyzed * 100 ≥ 40 * 3
        then ("MEDIUM", 85)
        else ("LOW", 70))) ∧
    (finalScoresOf (calculateScores r)).rawTotal =
      (finalScoresOf (calculateScores r)).security +
      (finalScoresOf (calculateScores r)).codeQuality +
      (finalScoresOf (calculateScores r)).testing +
      (finalScoresOf (calculateScores r)).dependencies +
      (finalScoresOf (calculateScores r)).hygiene ∧
    (finalScoresOf (calculateScores r)).overall =
      Nat.min 95
        (if (finalScoresOf (calculateScores r)).confidenceMultiplier100 = 70 ∧
            ((finalScoresOf (calculateScores r)).rawTotal = 45 ∨
             (finalScoresOf (calculateScores r)).rawTotal = 85)
         then roundHalfUp ((finalScoresOf (calculateScores r)).rawTotal * 70) 100 - 1
         else roundHalfUp ((finalScoresOf (calculateScores r)).rawTotal *
                (finalScoresOf (calculateScores r)).confidenceMultiplier100) 100) := by
  have hb := breakdownOf_calculateScores r
  rw [finalScoresOf_calculateScores, analysisConfidence_calculateScores, hb]
  dsimp only
  refine ⟨⟨fun h => by simp [confidenceOf, h], fun h => by simp [confidenceOf, h], rfl⟩, rfl, ?_⟩
  have h1 := securityBlock_earned_le r.security.analyzed r.security.vulnerabilities
    (effectiveVulnsOf r) (isLibraryType r.repoType)
  have h2 := codeQualityBlock_earned_le (isLibraryType r.repoType) r.stack.hasESLint
    r.codeQuality.analyzed r.codeQuality.eslintErrors r.codeQuality.eslintWarnings
    r.stack.hasTypeScript
  have h3 := testingBlock_earned_le r.stack.hasTests r.stack.hasCICD
  have h4 := dependenciesBlock_earned_le r.dependencies.analyzed (effectiveVulnsOf r)
    r.dependencies.outdated (isLibraryType r.repoType)
  have h5 := hygieneBlock_earned_le r.stack
  rw [jsRoundTimesMult_eq _ _ (by omega)
    (confidenceOf_snd r.security.analyzed r.codeQuality.analyzed r.dependencies.analyzed)]

/-- C3 counterexample: with only the security audit among the three collectors
(LOW confidence, ×0.7) and a raw total of 45, the code computes
`Math.round(45 * 0.7) = Math.round(31.499999999999996) = 31`, while the
claimed formula `min(95, round(45 × 0.7)) = round(31.5)` gives 32. -/
theorem C3_counterexample_raw45 :
    checksRun exRaw45.security.analyzed exRaw45.codeQuality.analyzed
      exRaw45.dependencies.analyzed = 1 ∧
    (finalScoresOf (calculateScores exRaw45)).rawTotal = 45 ∧
    (finalScoresOf (calculateScores exRaw45)).confidenceMultiplier100 = 70 ∧
    (finalScoresOf (calculateScores exRaw45)).overall = 31 ∧
    Nat.min 95 (roundHalfUp (45 * 70) 100) = 32 := by decide

/-- C3 witness: on a result where no collector ran, the amended theorem yields
LOW confidence and the ×0.7 multiplier. -/
theorem C3_confidence_witness :
    (calculateScores baseResult).analysisConfidence = "LOW" ∧
    (finalScoresOf (calculateScores baseResult)).confidenceMultiplier100 = 70 :=
  (C3_confidence_and_overall baseResult).1.1 (by decide)

/-- C4 (amended): with no detected test framework the testing category earns
zero base points and the mandatory add-automated-tests suggestion is always
emitted; however the CI/CD bonus still applies, so with CI/CD configuration
present the category earns 5 rather than 0 — the zero holds only when no
CI/CD configuration exists. -/
theorem C4_no_tests_testing_score (r : Result) (h : r.stack.hasTests = false) :
    (breakdownOf (calculateScores r)).testing.earned =
      (if r.stack.hasCICD then 5 else 0) ∧
    addTestsSuggestion ∈ (calculateScores r).suggestions := by
  rw [breakdownOf_calculateScores, suggestions_calculateScores]
  dsimp only
  rw [h]
  constructor
  · dsimp only [testingBlock]
    cases hc : r.stack.hasCICD <;> simp
  · have hmem : addTestsSuggestion ∈ (testingBlock false r.stack.hasCICD).2 := by
      dsimp only [testingBlock]
      cases hc : r.stack.hasCICD <;> simp
    simp [hmem]

/-- C4 counterexample: a result with no test framework but CI/CD configured
earns 5 testing points, not 0. -/
theorem C4_counterexample_cicd :
    exNoTestsWithCI.stack.hasTests = false ∧
    (breakdownOf (calculateScores exNoTestsWithCI)).testing.earned = 5 ∧
    (breakdownOf (calculateScores exNoTestsWithCI)).testing.earned ≠ 0 := by decide

/-- C4 witness: the amended theorem instantiated at the CI/CD-configured
no-tests result. -/
theorem C4_no_tests_witness :
    (breakdownOf (calculateScores exNoTestsWithCI)).testing.earned =
      (if exNoTestsWithCI.stack.hasCICD then 5 else 0) ∧
    addTestsSuggestion ∈ (calculateScores exNoTestsWithCI).suggestions :=
  C4_no_tests_testing_score exNoTestsWithCI rfl

/-- C5 (amended): a failed security audit floors the security category at 5
and a failed dependency check floors dependencies at 2, unconditionally; but
the code-quality floor of 5 applies only when the project has no lint
configuration of its own.  An application-type project with its own lint
configuration whose lint run failed falls through every branch of the cascade
and earns 0 base points (only the TypeScript bonus can apply) — below the
floor, contradicting the never-a-negative-signal reading for that one case. -/
theorem C5_failed_collector_floors (r : Result) :
    (r.security.analyzed = false →
      (breakdownOf (calculateScores r)).security.earned = 5) ∧
    (r.dependencies.analyzed = false →
      (breakdownOf (calculateScores r)).dependencies.earned = 2) ∧
    (r.codeQuality.analyzed = false → r.stack.hasESLint = false →
      (breakdownOf (calculateScores r)).codeQuality.earned =
        5 + (if r.stack.hasTypeScript then 3 else 0)) ∧
    (r.codeQuality.analyzed = false → r.stack.hasESLint = true →
      isLibraryType r.repoType = false →
      (breakdownOf (calculateScores r)).codeQuality.earned =
        (if r.stack.hasTypeScript then 3 else 0)) := by
  rw [breakdownOf_calculateScores]
  dsimp only
  refine ⟨fun h => ?_, fun h => ?_, fun h he => ?_, fun h he hl => ?_⟩
  · rw [h]; rfl
  · rw [h]; rfl
  · rw [h, he]
    dsimp only [codeQualityBlock]
    cases ht : r.stack.hasTypeScript <;> cases hl : isLibraryType r.repoType <;> simp
  · rw [h, he, hl]
    dsimp only [codeQualityBlock]
    cases ht : r.stack.hasTypeScript <;> simp

/-- C5 counterexample: an application with its own ESLint configuration whose
lint run failed earns 0 code-quality points — not the positive partial-credit
floor the claim promises for every failed collector. -/
theorem C5_counterexample_lint_config_failed :
    exLintFailed.codeQuality.analyzed = false ∧
    exLintFailed.stack.hasESLint = true ∧
    isLibraryType exLintFailed.repoType = false ∧
    (breakdownOf (calculateScores exLintFailed)).codeQuality.earned = 0 := by decide

/-- C5 witness: on a result where all three collectors failed and no lint
configuration exists, the floors 5 / 2 / 5 all hold. -/
theorem C5_failed_collector_floors_witness :
    (breakdownOf (calculateScores baseResult)).security.earned = 5 ∧
    (breakdownOf (calculateScores baseResult)).dependencies.earned = 2 ∧
    (breakdownOf (calculateScores baseResult)).codeQuality.earned =
      5 + (if baseResult.stack.hasTypeScript then 3 else 0) :=
  ⟨(C5_failed_collector_floors baseResult).1 rfl,
   (C5_failed_collector_floors baseResult).2.1 rfl,
   (C5_failed_collector_floors baseResult).2.2.1 rfl rfl⟩

theorem securityBlock_earned_indep_of_vulns (analyzed : Bool) (v v2 eff : VulnCounts)
    (isLib : Bool) :
    (securityBlock analyzed v eff isLib).1.earned =
      (securityBlock analyzed v2 eff isLib).1.earned := by
  dsimp only [securityBlock]
  split_ifs <;> rfl

/-- C6: for every library/framework/cli-type target the security and
dependency scoring use the production-dependency-only vulnerability counts in
place of the all-dependency counts: the effective counts fed to both blocks
are exactly the production-only record (with the `?.field || 0` defaults), so
the earned security and dependency points are unchanged under replacing the
all-dependency counts by anything whatsoever — whatever the production counts
are, zero or not, the all-dependency counts never influence points (only the
informational note).  In particular, when the production counts are all zero
while devDependency findings exist, the security category earns its full 30
points, the purely informational non-scoring devDependencies note is added to
the security details, and the no-vulnerable-dependencies credit applies when
the dependency check ran. -/
theorem C6_library_production_only (r : Result) (altVulns : VulnCounts)
    (hlib : isLibraryType r.repoType = true) :
    effectiveVulnsOf r =
      { critical := ((r.security.productionVulns).map VulnCounts.critical).getD 0,
        high := ((r.security.productionVulns).map VulnCounts.high).getD 0,
        moderate := ((r.security.productionVulns).map VulnCounts.moderate).getD 0,
        low := ((r.security.productionVulns).map VulnCounts.low).getD 0,
        total := ((r.security.productionVulns).map VulnCounts.total).getD 0 } ∧
    (breakdownOf (calculateScores
        { r with security :=
            { r.security with vulnerabilities := altVulns } })).security.earned =
      (breakdownOf (calculateScores r)).security.earned ∧
    (breakdownOf (calculateScores
        { r with security :=
            { r.security with vulnerabilities := altVulns } })).dependencies.earned =
      (breakdownOf (calculateScores r)).dependencies.earned ∧
    (r.security.analyzed = true →
      r.security.productionVulns =
        some { critical := 0, high := 0, moderate := 0, low := 0, total := 0 } →
      (breakdownOf (calculateScores r)).security.earned = 30 ∧
      (0 < r.security.vulnerabilities.total →
        devDepNote r.security.vulnerabilities.total ∈
          (breakdownOf (calculateScores r)).security.details) ∧
      (r.dependencies.analyzed = true →
        "✓ No vulnerable dependencies (+4)" ∈
          (breakdownOf (calculateScores r)).dependencies.details)) := by
  have heffAlt : effectiveVulnsOf
      { r with security := { r.security with vulnerabilities := altVulns } } =
      effectiveVulnsOf r := by
    dsimp only [effectiveVulnsOf]
    rw [hlib]
    simp
  refine ⟨?_, ?_, ?_, fun han hprod => ?_⟩
  · dsimp only [effectiveVulnsOf]
    rw [hlib]
    simp
  · rw [breakdownOf_calculateScores, breakdownOf_calculateScores]
    dsimp only
    rw [heffAlt]
    exact securityBlock_earned_indep_of_vulns _ _ _ _ _
  · rw [breakdownOf_calculateScores, breakdownOf_calculateScores]
    dsimp only
    rw [heffAlt]
  · have heff : effectiveVulnsOf r =
        { critical := 0, high := 0, moderate := 0, low := 0, total := 0 } := by
      simp [effectiveVulnsOf, hlib, hprod]
    rw [breakdownOf_calculateScores]
    dsimp only
    rw [han, heff, hlib]
    refine ⟨?_, fun hdev => ?_, fun hdep => ?_⟩
    · dsimp only [securityBlock]
      simp
    · dsimp only [securityBlock]
      simp [hdev]
    · rw [hdep]
      dsimp only [dependenciesBlock]
      simp

/-- C6 witness: on a concrete library with 5 devDependency-only
vulnerabilities, the effective counts equal the production-only zeros, the
security points are unchanged when the all-dependency counts are replaced by
a completely different record, the security category earns the full 30, the
informational note is present, and the dependency credit applies. -/
theorem C6_library_production_only_witness :
    effectiveVulnsOf exLibraryDevVulns =
      { critical := 0, high := 0, moderate := 0, low := 0, total := 0 } ∧
    (breakdownOf (calculateScores
        { exLibraryDevVulns with security :=
            { exLibraryDevVulns.security with
                vulnerabilities :=
                  { critical := 9, high := 9, moderate := 9, low := 9,
                    total := 36 } } })).security.earned =
      (breakdownOf (calculateScores exLibraryDevVulns)).security.earned ∧
    (breakdownOf (calculateScores exLibraryDevVulns)).security.earned = 30 ∧
    devDepNote exLibraryDevVulns.security.vulnerabilities.total ∈
      (breakdownOf (calculateScores exLibraryDevVulns)).security.details ∧
    "✓ No vulnerable dependencies (+4)" ∈
      (breakdownOf (calculateScores exLibraryDevVulns)).dependencies.details := by
  have h := C6_library_production_only exLibraryDevVulns
    { critical := 9, high := 9, moderate := 9, low := 9, total := 36 } rfl
  exact ⟨h.1.trans (by decide), h.2.1, (h.2.2.2 rfl rfl).1,
    (h.2.2.2 rfl rfl).2.1 (by decide), (h.2.2.2 rfl rfl).2.2 rfl⟩

/-- C7 (amended): the verdict has two hard floors with the security floor
taking precedence.  A security category below 15 forces the
not-production-ready verdict (label `Security Issues` for library-like types,
`Not Production Ready` otherwise) regardless of the overall score; and for
application-type targets whose security floor did not fire (security ≥ 15), a
zero testing score forces `Not Interview Ready` regardless of the overall
score. -/
theorem C7_verdict_hard_floors (f : FinalScores) (t : String) :
    (f.security < 15 →
      (getVerdict f t).label =
        (if isLibraryType t then "Security Issues" else "Not Production Ready")) ∧
    (t = "application" → 15 ≤ f.security → f.testing = 0 →
      (getVerdict f t).label = "Not Interview Ready") := by
  constructor
  · intro hs
    dsimp only [getVerdict]
    cases hl : isLibraryType t <;> simp [hs]
  · intro ht hs htest
    subst ht
    have hl : isLibraryType "application" = false := rfl
    dsimp only [getVerdict]
    rw [hl]
    simp [Nat.not_lt.mpr hs, htest]

/-- C7 counterexample: an application-type scoring result with zero testing
points whose security category fell below 15 is labelled
`Not Production Ready`, not `Not Interview Ready` — the zero-testing floor
does not hold regardless of the rest once the security floor fires. -/
theorem C7_counterexample_security_precedence :
    exBothFloors.repoType = "application" ∧
    (finalScoresOf (calculateScores exBothFloors)).testing = 0 ∧
    (finalScoresOf (calculateScores exBothFloors)).security < 15 ∧
    ((calculateScores exBothFloors).verdict.map Verdict.label).getD "" =
      "Not Production Ready" ∧
    ((calculateScores exBothFloors).verdict.map Verdict.label).getD "" ≠
      "Not Interview Ready" := by decide

/-- C7 witness: both floors of the amended theorem at concrete scores — low
security forces `Not Production Ready` despite overall 90, and zero testing
with healthy security forces `Not Interview Ready` despite overall 90. -/
theorem C7_verdict_hard_floors_witness :
    (getVerdict exScoresLowSecurity "application").label = "Not Production Ready" ∧
    (getVerdict exScoresZeroTesting "application").label = "Not Interview Ready" := by
  constructor
  · have h := (C7_verdict_hard_floors exScoresLowSecurity "application").1 (by decide)
    simpa using h
  · exact (C7_verdict_hard_floors exScoresZeroTesting "application").2 rfl (by decide) rfl

/-- C8: the project classifier returns `cli` for every manifest with a truthy
`bin` field, before any library, framework, or monorepo signal is examined. -/
theorem C8_bin_field_forces_cli (pkg : Pkg) (h : pkg.bin = true) :
    detectRepoType pkg = "cli" := by
  dsimp only [detectRepoType]
  rw [h]
  rfl

/-- C8 witness: a manifest declaring `bin`, `main`, and `workspaces` together
is classified `cli`. -/
theorem C8_bin_field_forces_cli_witness :
    exBinPkg.bin = true ∧ exBinPkg.main = true ∧ exBinPkg.workspaces = true ∧
    detectRepoType exBinPkg = "cli" :=
  ⟨rfl, rfl, rfl, C8_bin_field_forces_cli exBinPkg rfl⟩

/-- C9: after recommendation synthesis (`addMandatorySuggestions` followed by
`generatePriorityActions`, as the orchestrator runs them) the suggestions
list and the priority-actions list are both non-empty, for every input: an
empty deduplicated list receives the generic documentation suggestion and an
empty action list receives the maintain-regular-updates fallback. -/
theorem C9_nonempty_recommendations (r : Result) :
    (generatePriorityActions (addMandatorySuggestions r)).suggestions ≠ [] ∧
    (generatePriorityActions (addMandatorySuggestions r)).priorityActions ≠ [] := by
  constructor
  · show (addMandatorySuggestions r).suggestions ≠ []
    dsimp only [addMandatorySuggestions]
    rw [← List.length_pos, sortByPriority_length]
    split_ifs <;> simp_all [List.isEmpty_iff, List.length_pos]
  · dsimp only [generatePriorityActions]
    rw [← List.length_pos]
    split_ifs <;> simp_all [List.isEmpty_iff, List.length_pos]

/-- C10: for every URL matching neither GitHub pattern, `analyzeGitHubRepo`
returns at once with `success = false` and error `Invalid GitHub URL`,
performing no effect (no clone): every Evidence record keeps its
`analyzed = false` default, the suggestions and priority-actions lists are
empty, and the scores object still holds the initialized values
`{security: 50, codeQuality: 50, maintenance: 50, overall: 50}`. -/
theorem C10_invalid_url_early_return (url : String)
    (pipeline : Result → Result × List String)
    (h : (parseGitHubUrl url).isValid = false) :
    analyzeGitHubRepo url pipeline =
      ({ initResult url with error := some "Invalid GitHub URL" }, []) ∧
    (analyzeGitHubRepo url pipeline).1.success = false ∧
    (analyzeGitHubRepo url pipeline).1.error = some "Invalid GitHub URL" ∧
    (analyzeGitHubRepo url pipeline).1.security.analyzed = false ∧
    (analyzeGitHubRepo url pipeline).1.dependencies.analyzed = false ∧
    (analyzeGitHubRepo url pipeline).1.codeQuality.analyzed = false ∧
    (analyzeGitHubRepo url pipeline).1.typescript.analyzed = false ∧
    (analyzeGitHubRepo url pipeline).1.suggestions = [] ∧
    (analyzeGitHubRepo url pipeline).1.priorityActions = [] ∧
    (analyzeGitHubRepo url pipeline).1.scores =
      ScoresState.initial { security := 50, codeQuality := 50, maintenance := 50, overall := 50 } ∧
    (analyzeGitHubRepo url pipeline).2 = [] := by
  have hcond : (initResult url).repoInfo.isValid = false := h
  have hmain : analyzeGitHubRepo url pipeline =
      ({ initResult url with error := some "Invalid GitHub URL" }, []) := by
    dsimp only [analyzeGitHubRepo]
    rw [if_pos hcond]
  rw [hmain]
  exact ⟨rfl, rfl, rfl, rfl, rfl, rfl, rfl, rfl, rfl, rfl, rfl⟩

/-- C10 witness: a non-GitHub URL yields the early-return result with no
effects. -/
theorem C10_invalid_url_witness :
    (parseGitHubUrl exBadUrl).isValid = false ∧
    (analyzeGitHubRepo exBadUrl exPipeline).1.success = false ∧
    (analyzeGitHubRepo exBadUrl exPipeline).1.error = some "Invalid GitHub URL" ∧
    (analyzeGitHubRepo exBadUrl exPipeline).1.suggestions = [] ∧
    (analyzeGitHubRepo exBadUrl exPipeline).1.priorityActions = [] ∧
    (analyzeGitHubRepo exBadUrl exPipeline).1.scores =
      ScoresState.initial { security := 50, codeQuality := 50, maintenance := 50, overall := 50 } ∧
    (analyzeGitHubRepo exBadUrl exPipeline).2 = [] := by
  have h := C10_invalid_url_early_return exBadUrl exPipeline (by decide)
  exact ⟨by decide, h.2.1, h.2.2.1, h.2.2.2.2.2.2.2.1, h.2.2.2.2.2.2.2.2.1,
    h.2.2.2.2.2.2.2.2.2.1, h.2.2.2.2.2.2.2.2.2.2⟩
